import Mathlib

/-!
Shallow embedding of the akismet-js client (`src/index.ts`).

JavaScript objects used as parameter bags are modelled as ordered association
lists of string keys and string values; JS property assignment updates the
first matching key in place or appends at the end.  The JS `x || default`
idiom is modelled by falsy-aware helpers (`undefined`, `""` and `0` are
falsy).  The HTTP transport is modelled as a function from the built request
to a transport result (either a connection error or a status/body pair), and
each operation is a pure function of the client, the caller's parameter
object and the transport behaviour, returning the mutated parameter object,
the exchange that took place and the arguments passed to the caller's
callback.
-/

/-- A JS object used as a string-keyed parameter bag, in insertion order. -/
abbrev Params := List (String × String)

/-- JS property assignment `obj[k] = v`: overwrite the existing entry for `k`
in place, or append a new entry if `k` is absent. -/
def setParam : Params → String → String → Params
  | [], k, v => [(k, v)]
  | (k', v') :: rest, k, v =>
    if k' = k then (k, v) :: rest else (k', v') :: setParam rest k v

/-- JS property read `obj[k]`. -/
def getParam : Params → String → Option String
  | [], _ => none
  | (k', v') :: rest, k => if k' = k then some v' else getParam rest k

/-- JS `x || d` on an optional string: `undefined` and `""` are falsy. -/
def strOr : Option String → String → String
  | none, d => d
  | some s, d => if s = "" then d else s

/-- JS `x || d` on an optional number: `undefined` and `0` are falsy. -/
def natOr : Option Nat → Nat → Nat
  | none, d => d
  | some n, d => if n = 0 then d else n

/-- The settings accepted by the client factory (`AkismetOptions`). -/
structure AkismetOptions where
  blog : Option String := none
  apiKey : String
  host : Option String := none
  endPoint : Option String := none
  port : Option Nat := none
  userAgent : Option String := none
  charSet : Option String := none
deriving Repr, DecidableEq

/-- The configured client state (`AkismetClient` fields). -/
structure AkismetClient where
  _blog : String
  _apiKey : String
  _host : String
  _endPoint : String
  _port : Nat
  _userAgent : String
  _charSet : String
deriving Repr, DecidableEq

/-- The `AkismetClient` constructor. -/
def mkClient (options : AkismetOptions) : AkismetClient :=
  let blog := strOr options.blog ""
  let apiKey := options.apiKey
  let host := strOr options.host "rest.akismet.com"
  { _blog := blog
    _apiKey := apiKey
    _host := host
    _endPoint := strOr options.endPoint (apiKey ++ "." ++ host)
    _port := natOr options.port 80
    _userAgent := strOr options.userAgent "Generic Node.js/1.0.0 | Akismet/3.1.7"
    _charSet := strOr options.charSet "utf-8" }

/-- The result of `url.format` on the object built in `_postRequest`. -/
structure URL where
  protocol : String
  hostname : String
  pathname : String
  port : Nat
deriving Repr, DecidableEq

/-- The options object handed to the HTTP library by `_postRequest`. -/
structure RequestOptions where
  url : URL
  form : Params
  headers : Params
deriving Repr, DecidableEq

/-- The URL constructed inside `_postRequest`. -/
def formatURL (c : AkismetClient) (hostname path : String) : URL :=
  { protocol := if c._port = 443 then "https" else "http"
    hostname := hostname
    pathname := path
    port := c._port }

/-- The full request built by `_postRequest` before posting. -/
def mkRequestOptions (c : AkismetClient) (hostname path : String)
    (query : Params) : RequestOptions :=
  { url := formatURL c hostname path
    form := query
    headers := [("content-type", "charset=" ++ c._charSet),
                ("user-agent", c._userAgent)] }

/-- What the transport reports for one POST: a connection error, or an HTTP
response with a status code and a raw body. -/
inductive TransportResult where
  | fail (err : String)
  | ok (status : Nat) (body : String)
deriving Repr, DecidableEq

/-- The `(err, status, body)` triple `_postRequest` passes to its callback. -/
structure PostCallbackArgs where
  err : Option String
  status : Nat
  body : String
deriving Repr, DecidableEq

/-- How the request callback inside `_postRequest` translates the transport
result: an error becomes `(err, 0, "")`, a response `(null, status, body)`. -/
def postCallbackOf : TransportResult → PostCallbackArgs
  | .fail e => ⟨some e, 0, ""⟩
  | .ok s b => ⟨none, s, b⟩

/-- One completed exchange: the request that was posted and the triple
delivered to the `_postRequest` callback. -/
structure PostExchange where
  req : RequestOptions
  res : PostCallbackArgs
deriving Repr, DecidableEq

/-- A transport behaviour: what the HTTP stack reports for a given request. -/
abbrev Transport := RequestOptions → TransportResult

/-- `_postRequest`: build the request from hostname, path and query, post it
through the transport, and normalise the outcome for the callback. -/
def _postRequest (c : AkismetClient) (hostname path : String)
    (query : Params) (t : Transport) : PostExchange :=
  let req := mkRequestOptions c hostname path query
  ⟨req, postCallbackOf (t req)⟩

/-- The execution of one `_postRequest` call at the level of the surrounding
Node domain: the stack either invokes the request callback with a transport
result, or lets an error escape asynchronously, which the domain's error
handler catches. -/
inductive ExecBehaviour where
  | completes (r : TransportResult)
  | raisesAsync (err : String)
deriving Repr, DecidableEq

/-- The list of `(err, status, body)` invocations `_postRequest` delivers to
its callback across one execution: the request callback fires once on
completion, and the domain error handler fires once with `(err, 0, "")` on an
escaped asynchronous error. -/
def postRequestInvocations : ExecBehaviour → List PostCallbackArgs
  | .completes r => [postCallbackOf r]
  | .raisesAsync e => [⟨some e, 0, ""⟩]

/-- `verifyKey`: posts `{key, blog}` to `/1.1/verify-key` on the configured
host and reports `(err, status in 2xx && body === "valid")`. -/
def verifyKey (c : AkismetClient) (t : Transport) :
    PostExchange × (Option String × Bool) :=
  let options : Params := [("key", c._apiKey), ("blog", c._blog)]
  let ex := _postRequest c c._host "/1.1/verify-key" options t
  (ex, (ex.res.err,
        decide (200 ≤ ex.res.status) && decide (ex.res.status < 300)
          && (ex.res.body == "valid")))

/-- `checkComment`: overwrites `blog` and `user_agent` on the caller's
parameter object, posts it to `/1.1/comment-check` on the per-key endpoint
and reports `(err, status in 2xx && body === "true")`.  The first component
is the caller's parameter object after the call. -/
def checkComment (c : AkismetClient) (options : Params) (t : Transport) :
    Params × PostExchange × (Option String × Bool) :=
  let options := setParam options "blog" c._blog
  let options := setParam options "user_agent" c._userAgent
  let ex := _postRequest c c._endPoint "/1.1/comment-check" options t
  (options, ex, (ex.res.err,
   decide (200 ≤ ex.res.status) && decide (ex.res.status < 300)
     && (ex.res.body == "true")))

/-- `checkSpam`: historic alias of `checkComment`. -/
def checkSpam (c : AkismetClient) (options : Params) (t : Transport) :
    Params × PostExchange × (Option String × Bool) :=
  checkComment c options t

/-- `submitSpam`: overwrites `blog` and `user_agent`, posts to
`/1.1/submit-spam` on the per-key endpoint, and reports only the error. -/
def submitSpam (c : AkismetClient) (options : Params) (t : Transport) :
    Params × PostExchange × Option String :=
  let options := setParam options "blog" c._blog
  let options := setParam options "user_agent" c._userAgent
  let ex := _postRequest c c._endPoint "/1.1/submit-spam" options t
  (options, ex, ex.res.err)

/-- `submitHam`: overwrites `blog` and `user_agent`, posts to
`/1.1/submit-ham` on the per-key endpoint, and reports only the error. -/
def submitHam (c : AkismetClient) (options : Params) (t : Transport) :
    Params × PostExchange × Option String :=
  let options := setParam options "blog" c._blog
  let options := setParam options "user_agent" c._userAgent
  let ex := _postRequest c c._endPoint "/1.1/submit-ham" options t
  (options, ex, ex.res.err)

/-- A transport that fails every request with the given connection error. -/
def failingTransport (e : String) : Transport := fun _ => .fail e

/-- A transport that answers every request with the given status and body. -/
def respondingTransport (status : Nat) (body : String) : Transport :=
  fun _ => .ok status body

/-- A concrete client used by the witnesses. -/
def sampleClient : AkismetClient :=
  mkClient { apiKey := "abc123", blog := some "http://example.com" }

/-- A concrete parameter object used by the witnesses. -/
def sampleParams : Params :=
  [("user_ip", "1.1.1.1"), ("blog", "http://caller.example"),
   ("comment_content", "hello")]

theorem getParam_setParam_self (l : Params) (k v : String) :
    getParam (setParam l k v) k = some v := by
  induction l with
  | nil => simp [setParam, getParam]
  | cons hd tl ih =>
    obtain ⟨k', v'⟩ := hd
    by_cases h : k' = k
    · simp [setParam, getParam, h]
    · simp [setParam, getParam, h, ih]

theorem getParam_setParam_other (l : Params) (k v k' : String)
    (h : k' ≠ k) : getParam (setParam l k v) k' = getParam l k' := by
  have h' : k ≠ k' := Ne.symm h
  induction l with
  | nil => simp [setParam, getParam, h']
  | cons hd tl ih =>
    obtain ⟨k0, v0⟩ := hd
    by_cases h0 : k0 = k
    · subst h0
      simp [setParam, getParam, h']
    · simp only [setParam, if_neg h0, getParam]
      by_cases h1 : k0 = k'
      · simp [h1]
      · simp [h1, ih]

/-- C1: for every HTTP exchange delivered without a transport error,
`verifyKey` invokes its callback with error `null` and `true` exactly when
the status is in `[200,300)` and the body is the literal `"valid"` (every
other combination yields `(null, false)`), and the request carries exactly
the fields `key` and `blog` to `/1.1/verify-key` on the configured host. -/
theorem verifyKey_responseMapping (c : AkismetClient) (t : Transport)
    (status : Nat) (body : String)
    (h : t (mkRequestOptions c c._host "/1.1/verify-key"
        [("key", c._apiKey), ("blog", c._blog)]) =
      TransportResult.ok status body) :
    (verifyKey c t).2.1 = none ∧
    ((verifyKey c t).2.2 = true ↔ 200 ≤ status ∧ status < 300 ∧ body = "valid") ∧
    (verifyKey c t).1.req.form = [("key", c._apiKey), ("blog", c._blog)] ∧
    (verifyKey c t).1.req.url.pathname = "/1.1/verify-key" ∧
    (verifyKey c t).1.req.url.hostname = c._host := by
  simp only [mkRequestOptions, formatURL] at h
  simp [verifyKey, _postRequest, mkRequestOptions, formatURL, h,
    postCallbackOf, and_assoc]

/-- Witness for C1: a concrete client against a `200`/`"valid"` response. -/
theorem verifyKey_responseMapping_witness :
    respondingTransport 200 "valid"
        (mkRequestOptions sampleClient sampleClient._host "/1.1/verify-key"
          [("key", sampleClient._apiKey), ("blog", sampleClient._blog)]) =
      TransportResult.ok 200 "valid" ∧
    ((verifyKey sampleClient (respondingTransport 200 "valid")).2.1 = none ∧
     ((verifyKey sampleClient (respondingTransport 200 "valid")).2.2 = true ↔
        200 ≤ 200 ∧ 200 < 300 ∧ "valid" = "valid") ∧
     (verifyKey sampleClient (respondingTransport 200 "valid")).1.req.form =
        [("key", sampleClient._apiKey), ("blog", sampleClient._blog)] ∧
     (verifyKey sampleClient
        (respondingTransport 200 "valid")).1.req.url.pathname =
        "/1.1/verify-key" ∧
     (verifyKey sampleClient
        (respondingTransport 200 "valid")).1.req.url.hostname =
        sampleClient._host) :=
  ⟨rfl, verifyKey_responseMapping sampleClient (respondingTransport 200 "valid")
    200 "valid" rfl⟩

/-- C2: for every HTTP exchange delivered without a transport error,
`checkComment` invokes its callback with error `null` and `true` exactly when
the status is in `[200,300)` and the body is the literal `"true"` (every
other combination, including the literal `"false"`, yields `(null, false)`),
and the request is posted to `/1.1/comment-check` on the per-key endpoint. -/
theorem checkComment_responseMapping (c : AkismetClient) (opts : Params)
    (t : Transport) (status : Nat) (body : String)
    (h : t (mkRequestOptions c c._endPoint "/1.1/comment-check"
        (setParam (setParam opts "blog" c._blog) "user_agent" c._userAgent)) =
      TransportResult.ok status body) :
    (checkComment c opts t).2.2.1 = none ∧
    ((checkComment c opts t).2.2.2 = true ↔
       200 ≤ status ∧ status < 300 ∧ body = "true") ∧
    (checkComment c opts t).2.1.req.url.pathname = "/1.1/comment-check" ∧
    (checkComment c opts t).2.1.req.url.hostname = c._endPoint := by
  simp only [mkRequestOptions, formatURL] at h
  simp [checkComment, _postRequest, mkRequestOptions, formatURL, h,
    postCallbackOf, and_assoc]

/-- Witness for C2: a concrete client and parameters against a `200`/`"true"`
response. -/
theorem checkComment_responseMapping_witness :
    respondingTransport 200 "true"
        (mkRequestOptions sampleClient sampleClient._endPoint
          "/1.1/comment-check"
          (setParam (setParam sampleParams "blog" sampleClient._blog)
            "user_agent" sampleClient._userAgent)) =
      TransportResult.ok 200 "true" ∧
    ((checkComment sampleClient sampleParams
        (respondingTransport 200 "true")).2.2.1 = none ∧
     ((checkComment sampleClient sampleParams
         (respondingTransport 200 "true")).2.2.2 = true ↔
        200 ≤ 200 ∧ 200 < 300 ∧ "true" = "true") ∧
     (checkComment sampleClient sampleParams
        (respondingTransport 200 "true")).2.1.req.url.pathname =
        "/1.1/comment-check" ∧
     (checkComment sampleClient sampleParams
        (respondingTransport 200 "true")).2.1.req.url.hostname =
        sampleClient._endPoint) :=
  ⟨rfl, checkComment_responseMapping sampleClient sampleParams
    (respondingTransport 200 "true") 200 "true" rfl⟩

/-- C5: `checkSpam` is a pure alias of `checkComment`: for every client,
parameter object and transport behaviour it produces the same mutated
parameters, the same request and the same callback outcome. -/
theorem checkSpam_alias : checkSpam = checkComment := rfl

/-- C3: when the transport reports a connection error, `verifyKey`,
`checkComment` and `checkSpam` deliver the non-null error together with
`false`, and `submitSpam`/`submitHam` deliver the non-null error; every
operation still returns normally through its callback. -/
theorem transportError_propagation (c : AkismetClient) (opts : Params)
    (e : String) :
    (verifyKey c (failingTransport e)).2 = (some e, false) ∧
    (checkComment c opts (failingTransport e)).2.2 = (some e, false) ∧
    (checkSpam c opts (failingTransport e)).2.2 = (some e, false) ∧
    (submitSpam c opts (failingTransport e)).2.2 = some e ∧
    (submitHam c opts (failingTransport e)).2.2 = some e := by
  simp [verifyKey, checkComment, checkSpam, submitSpam, submitHam,
    _postRequest, failingTransport, postCallbackOf]

/-- C4: for every HTTP response received by `submitSpam` or `submitHam` —
any status code and any body — the callback gets a null error; the response
content never affects the outcome. -/
theorem submit_ignoresResponse (c : AkismetClient) (opts : Params)
    (status : Nat) (body : String) :
    (submitSpam c opts (respondingTransport status body)).2.2 = none ∧
    (submitHam c opts (respondingTransport status body)).2.2 = none := by
  simp [submitSpam, submitHam, _postRequest, respondingTransport,
    postCallbackOf]

/-- C6: after `checkComment`, `submitSpam` or `submitHam`, the caller's
parameter object has `blog` and `user_agent` overwritten to the client's
configured values, every other key is unchanged, and the object is
transmitted verbatim as the request form. -/
theorem inject_frameEffect (c : AkismetClient) (opts : Params) (t : Transport)
    (k : String) (hb : k ≠ "blog") (hu : k ≠ "user_agent") :
    getParam (checkComment c opts t).1 "blog" = some c._blog ∧
    getParam (checkComment c opts t).1 "user_agent" = some c._userAgent ∧
    getParam (checkComment c opts t).1 k = getParam opts k ∧
    (checkComment c opts t).2.1.req.form = (checkComment c opts t).1 ∧
    (submitSpam c opts t).1 = (checkComment c opts t).1 ∧
    (submitSpam c opts t).2.1.req.form = (submitSpam c opts t).1 ∧
    (submitHam c opts t).1 = (checkComment c opts t).1 ∧
    (submitHam c opts t).2.1.req.form = (submitHam c opts t).1 := by
  have hform : (checkComment c opts t).1 =
      setParam (setParam opts "blog" c._blog) "user_agent" c._userAgent := rfl
  refine ⟨?_, ?_, ?_, rfl, rfl, rfl, rfl, rfl⟩
  · rw [hform, getParam_setParam_other _ _ _ _ (by decide),
      getParam_setParam_self]
  · rw [hform, getParam_setParam_self]
  · rw [hform, getParam_setParam_other _ _ _ _ hu,
      getParam_setParam_other _ _ _ _ hb]

/-- Witness for C6: a concrete client, parameter object and untouched key. -/
theorem inject_frameEffect_witness :
    ("user_ip" ≠ "blog" ∧ "user_ip" ≠ "user_agent") ∧
    (getParam (checkComment sampleClient sampleParams
        (respondingTransport 200 "true")).1 "blog" = some sampleClient._blog ∧
     getParam (checkComment sampleClient sampleParams
        (respondingTransport 200 "true")).1 "user_agent" =
        some sampleClient._userAgent ∧
     getParam (checkComment sampleClient sampleParams
        (respondingTransport 200 "true")).1 "user_ip" =
        getParam sampleParams "user_ip" ∧
     (checkComment sampleClient sampleParams
        (respondingTransport 200 "true")).2.1.req.form =
        (checkComment sampleClient sampleParams
          (respondingTransport 200 "true")).1 ∧
     (submitSpam sampleClient sampleParams
        (respondingTransport 200 "true")).1 =
        (checkComment sampleClient sampleParams
          (respondingTransport 200 "true")).1 ∧
     (submitSpam sampleClient sampleParams
        (respondingTransport 200 "true")).2.1.req.form =
        (submitSpam sampleClient sampleParams
          (respondingTransport 200 "true")).1 ∧
     (submitHam sampleClient sampleParams
        (respondingTransport 200 "true")).1 =
        (checkComment sampleClient sampleParams
          (respondingTransport 200 "true")).1 ∧
     (submitHam sampleClient sampleParams
        (respondingTransport 200 "true")).2.1.req.form =
        (submitHam sampleClient sampleParams
          (respondingTransport 200 "true")).1) :=
  ⟨⟨by decide, by decide⟩,
   inject_frameEffect sampleClient sampleParams (respondingTransport 200 "true")
     "user_ip" (by decide) (by decide)⟩

/-- C7: across one execution of `_postRequest` — whether the stack completes
the request with a result or lets an asynchronous error escape to the
surrounding domain — the callback is invoked exactly once. -/
theorem postRequest_callbackOnce (beh : ExecBehaviour) :
    (postRequestInvocations beh).length = 1 := by
  cases beh with
  | completes r => rfl
  | raisesAsync e => rfl

/-- C8: the request executor builds the URL with scheme `https` exactly when
the configured port is `443` and `http` otherwise, and the URL carries the
given hostname, the given path and the configured port. -/
theorem postRequest_urlConstruction (c : AkismetClient)
    (hostname path : String) (query : Params) :
    ((mkRequestOptions c hostname path query).url.protocol = "https" ↔
       c._port = 443) ∧
    ((mkRequestOptions c hostname path query).url.protocol = "http" ↔
       c._port ≠ 443) ∧
    (mkRequestOptions c hostname path query).url.hostname = hostname ∧
    (mkRequestOptions c hostname path query).url.pathname = path ∧
    (mkRequestOptions c hostname path query).url.port = c._port := by
  by_cases h : c._port = 443 <;> simp [mkRequestOptions, formatURL, h]

/-- C9: a client constructed with only `apiKey` set has endpoint
`apiKey ++ "." ++ "rest.akismet.com"`, port `80` and charset `"utf-8"`. -/
theorem mkClient_defaults (apiKey : String) :
    (mkClient { apiKey := apiKey })._endPoint =
      apiKey ++ "." ++ "rest.akismet.com" ∧
    (mkClient { apiKey := apiKey })._port = 80 ∧
    (mkClient { apiKey := apiKey })._charSet = "utf-8" := by
  simp [mkClient, strOr, natOr]

/-- C10: a falsy configuration field is silently replaced by its default:
port `0` behaves exactly like an omitted port (yielding port `80` and hence
scheme `http`), and an empty string for host, endPoint, userAgent or charSet
behaves exactly like the omitted field. -/
theorem mkClient_falsyDefaults (options : AkismetOptions)
    (hostname path : String) (query : Params) :
    mkClient { options with port := some 0 } =
      mkClient { options with port := none } ∧
    (mkClient { options with port := some 0 })._port = 80 ∧
    (mkRequestOptions (mkClient { options with port := some 0 })
        hostname path query).url.protocol = "http" ∧
    mkClient { options with host := some "" } =
      mkClient { options with host := none } ∧
    mkClient { options with endPoint := some "" } =
      mkClient { options with endPoint := none } ∧
    mkClient { options with userAgent := some "" } =
      mkClient { options with userAgent := none } ∧
    mkClient { options with charSet := some "" } =
      mkClient { options with charSet := none } := by
  simp [mkClient, mkRequestOptions, formatURL, strOr, natOr]
